import Mathlib

/-!
# Verification of the orbital-mechanics and procedural-generation core

A shallow embedding of the repository's core (`types.ts`: the data model,
`generateSolarSystem`, `solveKepler`, `getPositionOnOrbit`) over the reals.
JavaScript's ambient `Math.random()` is modelled as an explicit stream
`u : ℕ → ℝ` of draws together with an index that every randomized helper
threads through in the exact order the source consumes draws.  Machine
floats are modelled as real numbers.
-/

open scoped Classical

noncomputable section

/-- An orbit descriptor, mirroring the `Orbit` interface. -/
structure Orbit where
  a : ℝ
  e : ℝ
  omega : ℝ
  period : ℝ
  meanAnomaly0 : ℝ

/-- A moon, mirroring `Moon extends Entity` (flattened). -/
structure Moon where
  id : String
  name : String
  parentId : String
  radius : ℝ
  color : String
  orbit : Orbit

/-- The `PlanetType` enum. -/
inductive PlanetType where
  | rocky
  | gasGiant
  | iceGiant
  | dwarf
deriving DecidableEq

/-- The string value of the `PlanetType` enum member, as in the source. -/
def ptypeStr : PlanetType → String
  | .rocky => "Rocky"
  | .gasGiant => "Gas Giant"
  | .iceGiant => "Ice Giant"
  | .dwarf => "Dwarf"

/-- A planet, mirroring `Planet extends Entity` (flattened). -/
structure Planet where
  id : String
  name : String
  type : PlanetType
  radius : ℝ
  color : String
  description : String
  moons : List Moon
  orbit : Orbit

/-- One asteroid-belt particle. -/
structure Particle where
  angle : ℝ
  radius : ℝ
  speed : ℝ
  size : ℝ

/-- An asteroid belt (`count` is the stored number, an integer in the
source since it comes from `Math.floor` or the literal `2500`). -/
structure AsteroidBelt where
  minRadius : ℝ
  maxRadius : ℝ
  count : ℤ
  particles : List Particle

/-- The star descriptor inside `SolarSystem`. -/
structure StarInfo where
  radius : ℝ
  color : String
  mass : ℝ

/-- The aggregate `SolarSystem`. -/
structure SolarSystem where
  star : StarInfo
  planets : List Planet
  asteroidBelts : List AsteroidBelt

/-- Default planet, used to model JavaScript array indexing totally. -/
def defaultPlanet : Planet :=
  ⟨"", "", .rocky, 0, "", "", [], ⟨0, 0, 0, 0, 0⟩⟩

/-- Default moon for total indexing. -/
def defaultMoon : Moon := ⟨"", "", "", 0, "", ⟨0, 0, 0, 0, 0⟩⟩

/-- Default belt for total indexing. -/
def defaultBelt : AsteroidBelt := ⟨0, 0, 0, []⟩

/-! ## The Kepler solver (`solveKepler`) -/

/-- The Newton-Raphson loop of `solveKepler`, state `(E, delta, iter)`.
The source loop `while (Math.abs(delta) > tolerance && iter < maxIter)`
increments `iter` on every pass, so with `fuel = 30` and starting
`iter = 0` the fuel never runs out before the `iter < 30` guard fails:
the fuel-free exhaustion branch coincides with the guard. -/
def solveKeplerGo (M e tolerance : ℝ) : ℕ → ℝ → ℝ → ℕ → ℝ × ℝ × ℕ
  | 0, E, delta, iter => (E, delta, iter)
  | fuel + 1, E, delta, iter =>
    if |delta| > tolerance ∧ iter < 30 then
      let d := (E - e * Real.sin E - M) / (1 - e * Real.cos E)
      solveKeplerGo M e tolerance fuel (E - d) d (iter + 1)
    else (E, delta, iter)

/-- `solveKepler` with its full final loop state exposed:
initial guess `E = M`, initial `delta = 1`, `iter = 0`. -/
def solveKeplerFull (M e tolerance : ℝ) : ℝ × ℝ × ℕ :=
  solveKeplerGo M e tolerance 30 M 1 0

/-- `solveKepler(M, e, tolerance)`: the returned eccentric anomaly. -/
def solveKepler (M e tolerance : ℝ) : ℝ :=
  (solveKeplerFull M e tolerance).1

/-! ## Orbit-to-position projection (`getPositionOnOrbit`) -/

/-- Truncation toward zero, as JavaScript's division underlying `%`. -/
def rtrunc (x : ℝ) : ℤ := if 0 ≤ x then ⌊x⌋ else ⌈x⌉

/-- JavaScript's remainder operator `x % y` on numbers:
`x - y * trunc(x / y)` (result takes the sign of the dividend). -/
def jsMod (x y : ℝ) : ℝ := x - y * (rtrunc (x / y) : ℤ)

/-- A 2D position `{x, y}`. -/
structure Point where
  x : ℝ
  y : ℝ

/-- `getPositionOnOrbit(orbit, time)`.  The source calls
`solveKepler(M, e)` with the default tolerance `1e-6`. -/
def getPositionOnOrbit (orbit : Orbit) (time : ℝ) : Point :=
  let n := 2 * Real.pi / orbit.period
  let M := orbit.meanAnomaly0 + n * time
  let Mr := jsMod M (2 * Real.pi)
  let E := solveKepler Mr orbit.e 1e-6
  let P := orbit.a * (Real.cos E - orbit.e)
  let Q := orbit.a * Real.sqrt (1 - orbit.e * orbit.e) * Real.sin E
  ⟨P * Real.cos orbit.omega - Q * Real.sin orbit.omega,
   P * Real.sin orbit.omega + Q * Real.cos orbit.omega⟩

/-! ## The generator (`generateSolarSystem`)

Draw indices: the star consumes draws 0 (radius) and 1-3 (color), the
planet count is draw 4, and the planet loop starts at draw 5. -/

/-- `randomRange(min, max)` reading draw `k` of the stream. -/
def randomRange (u : ℕ → ℝ) (lo hi : ℝ) (k : ℕ) : ℝ := u k * (hi - lo) + lo

/-- `randomInt(min, max)` reading draw `k` of the stream. -/
def randomInt (u : ℕ → ℝ) (lo hi : ℤ) (k : ℕ) : ℤ :=
  ⌊u k * ((hi : ℝ) - (lo : ℝ) + 1)⌋ + lo

/-- The name-prefix word list. -/
def namePrefixes : List String :=
  ["Kep", "Gliese", "Trappist", "Proxima", "Sol", "Vega", "Altair", "Deneb", "K2", "HD"]

/-- The name-suffix word list. -/
def nameSuffixes : List String :=
  ["Prime", "Major", "Minor", "b", "c", "d", "x", "Zeta", "I", "II", "III"]

/-- `generateName()`: consumes three draws starting at `k`; returns the
name and the next free draw index. -/
def generateName (u : ℕ → ℝ) (k : ℕ) : String × ℕ :=
  (namePrefixes.getD (randomInt u 0 ((namePrefixes.length : ℤ) - 1) k).toNat "" ++ "-" ++
     toString (randomInt u 10 999 (k + 1)) ++ " " ++
     nameSuffixes.getD (randomInt u 0 ((nameSuffixes.length : ℤ) - 1) (k + 2)).toNat "",
   k + 3)

/-- The roman-numeral table of `toRoman`. -/
def romanNumerals : List String :=
  ["I", "II", "III", "IV", "V", "VI", "VII", "VIII", "IX", "X"]

/-- `toRoman(num)`; out-of-range indices fall back to the decimal string
(`roms[num - 1] || num.toString()`; only called with `num ≥ 1`). -/
def toRoman (num : ℕ) : String := romanNumerals.getD (num - 1) (toString num)

/-- The `hsl(h, s%, l%)` template string. -/
def hslStr (h s l : ℤ) : String :=
  "hsl(" ++ toString h ++ ", " ++ toString s ++ "%, " ++ toString l ++ "%)"

/-- `generateColor(type)`: the rocky case consumes four draws
(coin + hue/sat/lig), every other known case three; returns the color
and the next free draw index. -/
def generateColor (u : ℕ → ℝ) (t : String) (k : ℕ) : String × ℕ :=
  if t = "Rocky" then
    if 0.5 < u k then
      (hslStr (randomInt u 100 220 (k + 1)) (randomInt u 40 80 (k + 2))
        (randomInt u 30 60 (k + 3)), k + 4)
    else
      (hslStr (randomInt u 0 40 (k + 1)) (randomInt u 50 90 (k + 2))
        (randomInt u 40 70 (k + 3)), k + 4)
  else if t = "Gas Giant" then
    (hslStr (randomInt u 20 50 k) (randomInt u 60 90 (k + 1))
      (randomInt u 50 80 (k + 2)), k + 3)
  else if t = "Ice Giant" then
    (hslStr (randomInt u 180 260 k) (randomInt u 60 90 (k + 1))
      (randomInt u 60 85 (k + 2)), k + 3)
  else if t = "Dwarf" then
    (hslStr (randomInt u 0 0 k) (randomInt u 0 10 (k + 1))
      (randomInt u 40 80 (k + 2)), k + 3)
  else if t = "STAR" then
    (hslStr (randomInt u 30 60 k) (randomInt u 80 100 (k + 1))
      (randomInt u 50 80 (k + 2)), k + 3)
  else ("#888", k)

/-- The moon loop of planet `i`: builds the moons with loop counter `m`,
six draws per moon starting at `k` (distance base, distance step,
radius, eccentricity, omega, mean anomaly). -/
def buildMoons (u : ℕ → ℝ) (i : ℕ) (planetRadius : ℝ) (planetName parentId : String) :
    ℕ → ℕ → ℕ → List Moon
  | 0, _, _ => []
  | c + 1, m, k =>
    let moonDist := planetRadius + randomRange u 5 15 k + (m : ℝ) * randomRange u 4 8 (k + 1)
    ⟨"moon-" ++ toString i ++ "-" ++ toString m,
     planetName ++ " " ++ toRoman (m + 1),
     parentId,
     randomRange u 0.8 1.8 (k + 2),
     "#ccc",
     ⟨moonDist, randomRange u 0 0.1 (k + 3), randomRange u 0 (2 * Real.pi) (k + 4),
      Real.rpow moonDist 1.5 * 0.15, randomRange u 0 (2 * Real.pi) (k + 5)⟩⟩
    :: buildMoons u i planetRadius planetName parentId c (m + 1) (k + 6)

/-- The gap drawn for planet `i` (`minGap`/`maxGap` depend on whether
the planet is in the inner system, `i < 4`). -/
def planetGap (u : ℕ → ℝ) (i k : ℕ) : ℝ :=
  randomRange u (if i < 4 then 20 else 80) (if i < 4 then 60 else 200) k

/-- The eccentricity drawn for a planet (draw `k + 1`). -/
def planetEcc (u : ℕ → ℝ) (k : ℕ) : ℝ := randomRange u 0.01 0.2 (k + 1)

/-- The derived semi-major axis:
`a = (previousAphelion + gap) / (1 - e)`. -/
def planetA (u : ℕ → ℝ) (i k : ℕ) (previousAphelion : ℝ) : ℝ :=
  (previousAphelion + planetGap u i k) / (1 - planetEcc u k)

/-- The frost-line type classification (type roll is draw `k + 2`). -/
def planetTypeOf (u : ℕ → ℝ) (i k : ℕ) (previousAphelion : ℝ) : PlanetType :=
  if 400 < planetA u i k previousAphelion ∨ 4 < i then
    if 0.55 < u (k + 2) then .gasGiant
    else if 0.25 < u (k + 2) then .iceGiant
    else if 0.1 < u (k + 2) then .rocky
    else .dwarf
  else if u (k + 2) < 0.15 then .dwarf else .rocky

/-- The type-dependent visual radius (draw `k + 3`). -/
def planetRadiusOf (u : ℕ → ℝ) (i k : ℕ) (previousAphelion : ℝ) : ℝ :=
  if planetTypeOf u i k previousAphelion = .gasGiant then randomRange u 10 16 (k + 3)
  else if planetTypeOf u i k previousAphelion = .iceGiant then randomRange u 7 11 (k + 3)
  else if planetTypeOf u i k previousAphelion = .dwarf then randomRange u 1.5 2.5 (k + 3)
  else randomRange u 3 6 (k + 3)

/-- Next free draw index after the color draws (which start at `k + 4`). -/
def planetK2 (u : ℕ → ℝ) (i k : ℕ) (previousAphelion : ℝ) : ℕ :=
  (generateColor u (ptypeStr (planetTypeOf u i k previousAphelion)) (k + 4)).2

/-- Next free draw index after the name draws. -/
def planetK3 (u : ℕ → ℝ) (i k : ℕ) (previousAphelion : ℝ) : ℕ :=
  (generateName u (planetK2 u i k previousAphelion)).2

/-- The moon count: type-dependent `randomInt` range, drawn after omega
and the initial mean anomaly (only consumed for non-dwarf planets). -/
def planetNumMoons (u : ℕ → ℝ) (i k : ℕ) (previousAphelion : ℝ) : ℕ :=
  if planetTypeOf u i k previousAphelion = .gasGiant then
    (randomInt u 3 8 (planetK3 u i k previousAphelion + 2)).toNat
  else if planetTypeOf u i k previousAphelion = .iceGiant then
    (randomInt u 2 5 (planetK3 u i k previousAphelion + 2)).toNat
  else (randomInt u 0 2 (planetK3 u i k previousAphelion + 2)).toNat

/-- One iteration of the planet loop: planet index `i`, draws starting
at `k`, running boundary `previousAphelion`; returns the planet and the
next free draw index. -/
def mkPlanet (u : ℕ → ℝ) (i k : ℕ) (previousAphelion : ℝ) : Planet × ℕ :=
  (⟨"planet-" ++ toString i,
    (generateName u (planetK2 u i k previousAphelion)).1,
    planetTypeOf u i k previousAphelion,
    planetRadiusOf u i k previousAphelion,
    (generateColor u (ptypeStr (planetTypeOf u i k previousAphelion)) (k + 4)).1,
    "A " ++ ptypeStr (planetTypeOf u i k previousAphelion) ++ " planet.",
    (if planetTypeOf u i k previousAphelion = .dwarf then []
     else buildMoons u i (planetRadiusOf u i k previousAphelion)
       (generateName u (planetK2 u i k previousAphelion)).1 ("planet-" ++ toString i)
       (planetNumMoons u i k previousAphelion) 0 (planetK3 u i k previousAphelion + 3)),
    ⟨planetA u i k previousAphelion,
     planetEcc u k,
     randomRange u 0 (2 * Real.pi) (planetK3 u i k previousAphelion),
     Real.rpow (planetA u i k previousAphelion) 1.5 * 0.005,
     randomRange u 0 (2 * Real.pi) (planetK3 u i k previousAphelion + 1)⟩⟩,
   if planetTypeOf u i k previousAphelion = .dwarf then planetK3 u i k previousAphelion + 2
   else planetK3 u i k previousAphelion + 3 + 6 * planetNumMoons u i k previousAphelion)

/-- The planet loop: `n` remaining iterations, current planet index `i`,
draw index `k`, running `previousAphelion`; returns the planets in
order plus the next free draw index. -/
def buildPlanets (u : ℕ → ℝ) : ℕ → ℕ → ℕ → ℝ → List Planet × ℕ
  | 0, _, k, _ => ([], k)
  | n + 1, i, k, prev =>
    let pk := mkPlanet u i k prev
    let rest := buildPlanets u n (i + 1) pk.2 (pk.1.orbit.a * (1 + pk.1.orbit.e))
    (pk.1 :: rest.1, rest.2)

/-- The planet phase of the generator: planet count drawn at index 4
(`randomInt(7, 12)`), loop from draw 5, initial boundary
`star.radius + 5`. -/
def planetsPart (u : ℕ → ℝ) : List Planet × ℕ :=
  buildPlanets u (randomInt u 7 12 4).toNat 0 5 (randomRange u 5 8 0 + 5)

/-- The valid-gap scan: adjacent pairs with
`p2Perihelion > p1Aphelion + safetyMargin * 2 + minBeltWidth`
(margin 15, width 20). -/
def validGapsOf (ps : List Planet) : List ℕ :=
  (List.range (ps.length - 1)).filter fun i =>
    let p1 := ps.getD i defaultPlanet
    let p2 := ps.getD (i + 1) defaultPlanet
    p1.orbit.a * (1 + p1.orbit.e) + 15 * 2 + 20 < p2.orbit.a * (1 - p2.orbit.e)

/-- The drawn inner-belt request: 3 below 0.05, 2 below 0.25, else 1. -/
def beltRollCount (roll : ℝ) : ℕ :=
  if roll < 0.05 then 3 else if roll < 0.25 then 2 else 1

/-- Swap entries `i` and `j` of a list (both in range at every use). -/
def swapL (l : List ℕ) (i j : ℕ) : List ℕ :=
  (l.set i (l.getD j 0)).set j (l.getD i 0)

/-- The Fisher-Yates loop `for (i = len-1; i > 0; i--)`, one draw per
pass: `j = Math.floor(random() * (i + 1))`. -/
def shuffleGo (u : ℕ → ℝ) : List ℕ → ℕ → ℕ → List ℕ
  | l, 0, _ => l
  | l, i + 1, k =>
    shuffleGo u (swapL l (i + 1) (⌊u k * ((i + 1 + 1 : ℕ) : ℝ)⌋).toNat) i (k + 1)

/-- The belt-particle loop: three draws per particle (radius, angle,
size); speed is `(1 / sqrt(r)) * 5`. -/
def mkParticles (u : ℕ → ℝ) (lo hi : ℝ) : ℕ → ℕ → List Particle
  | 0, _ => []
  | c + 1, k =>
    let r := randomRange u lo hi k
    ⟨randomRange u 0 (2 * Real.pi) (k + 1), r, 1 / Real.sqrt r * 5,
     randomRange u 0.5 1.5 (k + 2)⟩
    :: mkParticles u lo hi c (k + 3)

/-- One inner belt in gap `idx`: bounds are neighbour aphelion/perihelion
offset by the safety margin 15, particle count `floor(width * 20)`;
returns the belt and the next free draw index. -/
def mkInnerBelt (u : ℕ → ℝ) (ps : List Planet) (idx k : ℕ) : AsteroidBelt × ℕ :=
  let p1 := ps.getD idx defaultPlanet
  let p2 := ps.getD (idx + 1) defaultPlanet
  let minR := p1.orbit.a * (1 + p1.orbit.e) + 15
  let maxR := p2.orbit.a * (1 - p2.orbit.e) - 15
  let count := ⌊(maxR - minR) * 20⌋
  (⟨minR, maxR, count, mkParticles u minR maxR count.toNat k⟩, k + 3 * count.toNat)

/-- The `selectedGaps.forEach` loop building the inner belts in order. -/
def buildInnerBelts (u : ℕ → ℝ) (ps : List Planet) : List ℕ → ℕ → List AsteroidBelt × ℕ
  | [], k => ([], k)
  | idx :: rest, k =>
    let bk := mkInnerBelt u ps idx k
    let r := buildInnerBelts u ps rest bk.2
    (bk.1 :: r.1, r.2)

/-- The shuffled valid-gap list: the belt-count roll is the draw right
after the planet loop, the Fisher-Yates draws follow it. -/
def shuffledGapsOf (u : ℕ → ℝ) : List ℕ :=
  shuffleGo u (validGapsOf (planetsPart u).1) ((validGapsOf (planetsPart u).1).length - 1)
    ((planetsPart u).2 + 1)

/-- `numInnerBelts` after the clamp
`Math.min(numInnerBelts, validGaps.length)`. -/
def numInnerBeltsOf (u : ℕ → ℝ) : ℕ :=
  min (beltRollCount (u (planetsPart u).2)) (validGapsOf (planetsPart u).1).length

/-- `validGaps.slice(0, numInnerBelts)` after the shuffle. -/
def selectedGapsOf (u : ℕ → ℝ) : List ℕ := (shuffledGapsOf u).take (numInnerBeltsOf u)

/-- The inner-belt list (with the next free draw index); particle draws
start right after the roll and shuffle draws. -/
def innerBeltsOf (u : ℕ → ℝ) : List AsteroidBelt × ℕ :=
  buildInnerBelts u (planetsPart u).1 (selectedGapsOf u)
    ((planetsPart u).2 + 1 + ((validGapsOf (planetsPart u).1).length - 1))

/-- The outer Kuiper-analogue belt: just past the outermost planet's
aphelion plus clearance 40, random width in `[80, 150)`, 2500
particles. -/
def outerBeltOf (u : ℕ → ℝ) : AsteroidBelt :=
  let ps := (planetsPart u).1
  let lastPlanet := ps.getD (ps.length - 1) defaultPlanet
  let pAphelion := lastPlanet.orbit.a * (1 + lastPlanet.orbit.e)
  let minR := pAphelion + 40
  let maxR := minR + randomRange u 80 150 (innerBeltsOf u).2
  ⟨minR, maxR, 2500, mkParticles u minR maxR 2500 ((innerBeltsOf u).2 + 1)⟩

/-- `generateSolarSystem(width, height)` over the draw stream `u`.  The
`width`/`height` arguments are never read by the source body. -/
def generateSolarSystem (u : ℕ → ℝ) (width height : ℝ) : SolarSystem :=
  { star := ⟨randomRange u 5 8 0, (generateColor u "STAR" 1).1, 1⟩,
    planets := (planetsPart u).1,
    asteroidBelts := (innerBeltsOf u).1 ++ [outerBeltOf u] }

/-! ## Concrete draw streams used for witnesses and counterexamples -/

/-- The all-zero draw stream. -/
def uZero : ℕ → ℝ := fun _ => 0

/-- The constant one-half draw stream. -/
def uHalf : ℕ → ℝ := fun _ => 1 / 2

/-- A draw stream that makes planet 0 a rocky planet with two moons
whose orbital radii come out inverted: draw 7 keeps the type roll at
0.5 (rocky), draw 18 makes the moon count 2, and draw 19 pushes moon
0's distance offset high while moon 1's draws stay at the minimum. -/
def uMoonSwap : ℕ → ℝ := fun n =>
  if n = 7 then 1 / 2 else if n = 18 then 7 / 10 else if n = 19 then 9 / 10 else 0

/-- A draw stream with every value in `[0, 1)`, as `Math.random()`. -/
def UnitStream (u : ℕ → ℝ) : Prop := ∀ n, 0 ≤ u n ∧ u n < 1

/-- Value of a digit string (helper for reasoning about generated id
strings). -/
def digitsVal (l : List Char) : ℕ := l.foldl (fun acc c => acc * 10 + (c.toNat - 48)) 0

/-- Decode a `moon-<i>-<m>` id string back to its index pair (helper
for moon-id distinctness). -/
def decodeMoonId (s : String) : ℕ × ℕ :=
  let t := s.data.drop 5
  (digitsVal (t.takeWhile fun c => c ≠ '-'),
   digitsVal ((t.dropWhile fun c => c ≠ '-').drop 1))

end


/-! ## Solver lemmas and claims C4, C6, C7, C8 -/

theorem solveKeplerGo_spec (M e tol : ℝ) :
    ∀ fuel E delta iter, iter + fuel = 30 →
      (solveKeplerGo M e tol fuel E delta iter).2.2 ≤ 30 ∧
        (|(solveKeplerGo M e tol fuel E delta iter).2.1| ≤ tol ∨
          (solveKeplerGo M e tol fuel E delta iter).2.2 = 30) := by
  intro fuel
  induction fuel with
  | zero =>
    intro E delta iter h
    simp only [solveKeplerGo]
    exact ⟨by show iter ≤ 30; omega, Or.inr (by show iter = 30; omega)⟩
  | succ n ih =>
    intro E delta iter h
    rw [solveKeplerGo]
    by_cases hc : |delta| > tol ∧ iter < 30
    · rw [if_pos hc]
      exact ih _ _ _ (by omega)
    · rw [if_neg hc]
      push_neg at hc
      refine ⟨by show iter ≤ 30; omega, Or.inl ?_⟩
      show |delta| ≤ tol
      exact not_lt.mp fun hlt => absurd (hc hlt) (by omega)

/-- C4: for every mean anomaly `M` and eccentricity `e`, `solveKepler`
terminates: the final iteration count is at most 30, at exit either the
last correction satisfies `|delta| ≤ 1e-6` or the 30-iteration cap was
hit, and whenever `|delta| ≤ 1e-6` holds the loop stops immediately. -/
theorem solveKepler_terminates (M e : ℝ) :
    (solveKeplerFull M e 1e-6).2.2 ≤ 30 ∧
      (|(solveKeplerFull M e 1e-6).2.1| ≤ 1e-6 ∨ (solveKeplerFull M e 1e-6).2.2 = 30) ∧
      ∀ fuel E delta iter, |delta| ≤ 1e-6 →
        solveKeplerGo M e 1e-6 fuel E delta iter = (E, delta, iter) := by
  refine ⟨(solveKeplerGo_spec M e 1e-6 30 M 1 0 rfl).1,
    (solveKeplerGo_spec M e 1e-6 30 M 1 0 rfl).2, ?_⟩
  intro fuel E delta iter hd
  cases fuel with
  | zero => rfl
  | succ n =>
    rw [solveKeplerGo, if_neg]
    rintro ⟨h1, -⟩
    exact absurd hd (not_le.mpr h1)

theorem solveKepler_terminates_witness :
    |(0 : ℝ)| ≤ 1e-6 ∧ solveKeplerGo 0 0 1e-6 30 0 0 5 = (0, 0, 5) :=
  ⟨by norm_num, (solveKepler_terminates 0 0).2.2 30 0 0 5 (by norm_num)⟩

theorem solveKeplerGo_shift (M e tol : ℝ) (j : ℤ) :
    ∀ fuel E delta iter,
      solveKeplerGo (M + (j : ℝ) * (2 * Real.pi)) e tol fuel (E + (j : ℝ) * (2 * Real.pi))
          delta iter =
        ((solveKeplerGo M e tol fuel E delta iter).1 + (j : ℝ) * (2 * Real.pi),
         (solveKeplerGo M e tol fuel E delta iter).2) := by
  intro fuel
  induction fuel with
  | zero => intro E delta iter; rfl
  | succ n ih =>
    intro E delta iter
    rw [solveKeplerGo, solveKeplerGo]
    by_cases hc : |delta| > tol ∧ iter < 30
    · rw [if_pos hc, if_pos hc]
      have hsin : Real.sin (E + (j : ℝ) * (2 * Real.pi)) = Real.sin E :=
        Real.sin_add_int_mul_two_pi E j
      have hcos : Real.cos (E + (j : ℝ) * (2 * Real.pi)) = Real.cos E :=
        Real.cos_add_int_mul_two_pi E j
      have hd : (E + (j : ℝ) * (2 * Real.pi) - e * Real.sin (E + (j : ℝ) * (2 * Real.pi)) -
            (M + (j : ℝ) * (2 * Real.pi))) /
            (1 - e * Real.cos (E + (j : ℝ) * (2 * Real.pi))) =
          (E - e * Real.sin E - M) / (1 - e * Real.cos E) := by
        rw [hsin, hcos]; ring_nf
      simp only [hd]
      have harg : E + (j : ℝ) * (2 * Real.pi) -
            (E - e * Real.sin E - M) / (1 - e * Real.cos E) =
          E - (E - e * Real.sin E - M) / (1 - e * Real.cos E) + (j : ℝ) * (2 * Real.pi) := by
        ring
      rw [harg]
      exact ih _ _ _
    · rw [if_neg hc, if_neg hc]

/-- C6: for every valid orbit (`a > 0`, `0 ≤ e < 1`, `period > 0`) and
every time `t`, the position one period later is identical: the motion
is exactly periodic with period `orbit.period`. -/
theorem getPositionOnOrbit_periodic (orbit : Orbit) (ha : 0 < orbit.a)
    (he0 : 0 ≤ orbit.e) (he1 : orbit.e < 1) (hp : 0 < orbit.period) (t : ℝ) :
    getPositionOnOrbit orbit (t + orbit.period) = getPositionOnOrbit orbit t := by
  have hT : orbit.period ≠ 0 := ne_of_gt hp
  simp only [getPositionOnOrbit]
  set M := orbit.meanAnomaly0 + 2 * Real.pi / orbit.period * t with hMdef
  have hM : orbit.meanAnomaly0 + 2 * Real.pi / orbit.period * (t + orbit.period) =
      M + ((1 : ℤ) : ℝ) * (2 * Real.pi) := by
    rw [hMdef]
    field_simp
    ring
  rw [hM]
  obtain ⟨j, hj⟩ : ∃ j : ℤ, jsMod (M + ((1 : ℤ) : ℝ) * (2 * Real.pi)) (2 * Real.pi) =
      jsMod M (2 * Real.pi) + (j : ℝ) * (2 * Real.pi) := by
    refine ⟨1 + rtrunc (M / (2 * Real.pi)) -
      rtrunc ((M + ((1 : ℤ) : ℝ) * (2 * Real.pi)) / (2 * Real.pi)), ?_⟩
    simp only [jsMod]
    push_cast
    ring
  rw [hj]
  have hE : solveKepler (jsMod M (2 * Real.pi) + (j : ℝ) * (2 * Real.pi)) orbit.e 1e-6 =
      solveKepler (jsMod M (2 * Real.pi)) orbit.e 1e-6 + (j : ℝ) * (2 * Real.pi) := by
    simp only [solveKepler, solveKeplerFull]
    rw [solveKeplerGo_shift]
  rw [hE]
  rw [Real.cos_add_int_mul_two_pi, Real.sin_add_int_mul_two_pi]

theorem getPositionOnOrbit_periodic_witness :
    (0 : ℝ) < 100 ∧ (0 : ℝ) ≤ 0 ∧ (0 : ℝ) < 1 ∧ (0 : ℝ) < 10 ∧
      getPositionOnOrbit ⟨100, 0, 0, 10, 0⟩ (3 + (⟨100, 0, 0, 10, 0⟩ : Orbit).period) =
        getPositionOnOrbit ⟨100, 0, 0, 10, 0⟩ 3 :=
  ⟨by norm_num, by norm_num, by norm_num, by norm_num,
    getPositionOnOrbit_periodic ⟨100, 0, 0, 10, 0⟩ (by norm_num) (by norm_num)
      (by norm_num) (by norm_num) 3⟩

theorem rot_norm (Pv Qv w : ℝ) :
    (Pv * Real.cos w - Qv * Real.sin w) ^ 2 + (Pv * Real.sin w + Qv * Real.cos w) ^ 2 =
      Pv ^ 2 + Qv ^ 2 := by
  linear_combination (Pv ^ 2 + Qv ^ 2) * Real.sin_sq_add_cos_sq w

/-- C7: with `e = 0` (and `a > 0`, `period > 0`) the returned position
always lies at distance exactly `a` from the focus. -/
theorem getPositionOnOrbit_circular (orbit : Orbit) (he : orbit.e = 0)
    (ha : 0 < orbit.a) (hp : 0 < orbit.period) (t : ℝ) :
    Real.sqrt ((getPositionOnOrbit orbit t).x ^ 2 + (getPositionOnOrbit orbit t).y ^ 2) =
      orbit.a := by
  simp only [getPositionOnOrbit]
  rw [rot_norm, he]
  have h1 : (1 : ℝ) - 0 * 0 = 1 := by norm_num
  rw [h1, Real.sqrt_one]
  generalize solveKepler
    (jsMod (orbit.meanAnomaly0 + 2 * Real.pi / orbit.period * t) (2 * Real.pi)) 0 1e-6 = E
  have h2 : (orbit.a * (Real.cos E - 0)) ^ 2 + (orbit.a * 1 * Real.sin E) ^ 2 =
      orbit.a ^ 2 := by
    linear_combination orbit.a ^ 2 * Real.sin_sq_add_cos_sq E
  rw [h2, Real.sqrt_sq ha.le]

theorem getPositionOnOrbit_circular_witness :
    (⟨100, 0, 0, 10, 0⟩ : Orbit).e = 0 ∧ (0 : ℝ) < 100 ∧ (0 : ℝ) < 10 ∧
      Real.sqrt ((getPositionOnOrbit ⟨100, 0, 0, 10, 0⟩ 1).x ^ 2 +
        (getPositionOnOrbit ⟨100, 0, 0, 10, 0⟩ 1).y ^ 2) = (⟨100, 0, 0, 10, 0⟩ : Orbit).a :=
  ⟨rfl, by norm_num, by norm_num,
    getPositionOnOrbit_circular ⟨100, 0, 0, 10, 0⟩ rfl (by norm_num) (by norm_num) 1⟩

theorem solveKepler_zero_e (M : ℝ) : solveKepler M 0 1e-6 = M := by
  have h1 : solveKeplerGo M 0 1e-6 30 M 1 0 = solveKeplerGo M 0 1e-6 29 M 0 1 := by
    rw [solveKeplerGo, if_pos (by norm_num : |(1 : ℝ)| > 1e-6 ∧ 0 < 30)]
    norm_num
  have h2 : solveKeplerGo M 0 1e-6 29 M 0 1 = (M, 0, 1) := by
    rw [solveKeplerGo, if_neg]
    norm_num
  rw [solveKepler, solveKeplerFull, h1, h2]

/-- C8: for the orbit `a = 100`, `e = 0`, `period = 10`,
`meanAnomaly0 = 0`, `omega = 0`, the position is `(100, 0)` at time 0
and `(0, 100)` at time 2.5 (a quarter period). -/
theorem getPositionOnOrbit_scenario :
    getPositionOnOrbit ⟨100, 0, 0, 10, 0⟩ 0 = ⟨100, 0⟩ ∧
      getPositionOnOrbit ⟨100, 0, 0, 10, 0⟩ 2.5 = ⟨0, 100⟩ := by
  constructor
  · simp only [getPositionOnOrbit]
    have hM : (0 : ℝ) + 2 * Real.pi / 10 * 0 = 0 := by ring
    rw [hM]
    have hmod : jsMod 0 (2 * Real.pi) = 0 := by
      simp [jsMod, rtrunc]
    rw [hmod, solveKepler_zero_e]
    simp [Point.mk.injEq, Real.cos_zero, Real.sin_zero]
  · simp only [getPositionOnOrbit]
    have hM : (0 : ℝ) + 2 * Real.pi / 10 * 2.5 = Real.pi / 2 := by ring
    rw [hM]
    have hmod : jsMod (Real.pi / 2) (2 * Real.pi) = Real.pi / 2 := by
      have hq : Real.pi / 2 / (2 * Real.pi) = 1 / 4 := by
        field_simp
        ring
      have hfl : rtrunc (1 / 4 : ℝ) = 0 := by
        rw [rtrunc, if_pos (by norm_num : (0 : ℝ) ≤ 1 / 4)]
        rw [Int.floor_eq_zero_iff]
        constructor <;> norm_num
      rw [jsMod, hq, hfl]
      norm_num
    rw [hmod, solveKepler_zero_e]
    simp [Point.mk.injEq, Real.cos_pi_div_two, Real.sin_pi_div_two, Real.cos_zero,
      Real.sin_zero, Real.sqrt_one]

/-! ## Claim C9: the view dimensions never influence generation -/

/-- C9: `generateSolarSystem` never reads its `width`/`height`
arguments, so two calls with the same draw stream and arbitrary
different dimensions return identical systems. -/
theorem generateSolarSystem_dims_irrelevant (u : ℕ → ℝ) (w1 h1 w2 h2 : ℝ) :
    generateSolarSystem u w1 h1 = generateSolarSystem u w2 h2 := rfl

/-! ## Generator structure lemmas -/

theorem uZero_unit : UnitStream uZero := by
  intro n; constructor <;> norm_num [uZero]

theorem uHalf_unit : UnitStream uHalf := by
  intro n; constructor <;> norm_num [uHalf]

theorem uMoonSwap_unit : UnitStream uMoonSwap := by
  intro n
  simp only [uMoonSwap]
  split_ifs <;> norm_num

theorem randomRange_lower {u : ℕ → ℝ} {k : ℕ} (h0 : 0 ≤ u k) {lo hi : ℝ} (h : lo ≤ hi) :
    lo ≤ randomRange u lo hi k := by
  have := mul_nonneg h0 (sub_nonneg.mpr h)
  simp only [randomRange]
  linarith

theorem randomRange_upper {u : ℕ → ℝ} {k : ℕ} (h0 : 0 ≤ u k) (h1 : u k < 1)
    {lo hi : ℝ} (h : lo < hi) : randomRange u lo hi k < hi := by
  have := mul_lt_of_lt_one_left (sub_pos.mpr h) h1
  simp only [randomRange]
  linarith

theorem mkPlanet_fst_orbit_a (u : ℕ → ℝ) (i k : ℕ) (prev : ℝ) :
    (mkPlanet u i k prev).1.orbit.a = planetA u i k prev := rfl

theorem mkPlanet_fst_orbit_e (u : ℕ → ℝ) (i k : ℕ) (prev : ℝ) :
    (mkPlanet u i k prev).1.orbit.e = planetEcc u k := rfl

theorem mkPlanet_fst_id (u : ℕ → ℝ) (i k : ℕ) (prev : ℝ) :
    (mkPlanet u i k prev).1.id = "planet-" ++ toString i := rfl

theorem eccentricity_lt_one {u : ℕ → ℝ} (hu : UnitStream u) (k : ℕ) :
    randomRange u 0.01 0.2 k < 1 :=
  lt_trans (randomRange_upper (hu k).1 (hu k).2 (by norm_num)) (by norm_num)

theorem eccentricity_nonneg {u : ℕ → ℝ} (hu : UnitStream u) (k : ℕ) :
    0 ≤ randomRange u 0.01 0.2 k :=
  le_trans (by norm_num) (randomRange_lower (hu k).1 (by norm_num))

/-- The constructed perihelion `a * (1 - e)` recovers
`previousAphelion + gap` exactly. -/
theorem mkPlanet_peri {u : ℕ → ℝ} (hu : UnitStream u) (i k : ℕ) (prev : ℝ) :
    (mkPlanet u i k prev).1.orbit.a * (1 - (mkPlanet u i k prev).1.orbit.e) =
      prev + planetGap u i k := by
  rw [mkPlanet_fst_orbit_a, mkPlanet_fst_orbit_e, planetA]
  have he : planetEcc u k < 1 := eccentricity_lt_one hu (k + 1)
  exact div_mul_cancel₀ _ (by linarith)

theorem mkPlanet_peri_ge {u : ℕ → ℝ} (hu : UnitStream u) (i k : ℕ) (prev : ℝ) :
    prev + (if i < 4 then (20 : ℝ) else 80) ≤
      (mkPlanet u i k prev).1.orbit.a * (1 - (mkPlanet u i k prev).1.orbit.e) := by
  rw [mkPlanet_peri hu]
  have hlo : (if i < 4 then (20 : ℝ) else 80) ≤ (if i < 4 then (60 : ℝ) else 200) := by
    split_ifs <;> norm_num
  have := @randomRange_lower u k (hu k).1 (if i < 4 then (20 : ℝ) else 80)
    (if i < 4 then (60 : ℝ) else 200) hlo
  rw [planetGap]
  linarith

theorem buildPlanets_fst_length (u : ℕ → ℝ) :
    ∀ n i k prev, ((buildPlanets u n i k prev).1).length = n := by
  intro n
  induction n with
  | zero => intro i k prev; rfl
  | succ m ih =>
    intro i k prev
    simp only [buildPlanets, List.length_cons]
    rw [ih]

theorem buildPlanets_getD_zero (u : ℕ → ℝ) (n i k : ℕ) (prev : ℝ) :
    ((buildPlanets u (n + 1) i k prev).1).getD 0 defaultPlanet = (mkPlanet u i k prev).1 := rfl

theorem buildPlanets_getD_succ (u : ℕ → ℝ) (n i k : ℕ) (prev : ℝ) (j : ℕ) :
    ((buildPlanets u (n + 1) i k prev).1).getD (j + 1) defaultPlanet =
      ((buildPlanets u n (i + 1) (mkPlanet u i k prev).2
          ((mkPlanet u i k prev).1.orbit.a * (1 + (mkPlanet u i k prev).1.orbit.e))).1).getD
        j defaultPlanet := rfl

/-- The head planet's perihelion exceeds the incoming boundary by at
least the minimum gap for its index. -/
theorem buildPlanets_head_peri {u : ℕ → ℝ} (hu : UnitStream u) (n i k : ℕ) (prev : ℝ)
    (hn : 0 < n) :
    prev + (if i < 4 then (20 : ℝ) else 80) ≤
      (((buildPlanets u n i k prev).1).getD 0 defaultPlanet).orbit.a *
        (1 - (((buildPlanets u n i k prev).1).getD 0 defaultPlanet).orbit.e) := by
  cases n with
  | zero => omega
  | succ m =>
    rw [buildPlanets_getD_zero]
    exact mkPlanet_peri_ge hu i k prev

/-- Adjacent planets in the loop's output: the outer one's perihelion
exceeds the inner one's aphelion by at least the applicable minimum
gap. -/
theorem buildPlanets_chain {u : ℕ → ℝ} (hu : UnitStream u) :
    ∀ n i k prev j, j + 1 < n →
      (((buildPlanets u n i k prev).1).getD j defaultPlanet).orbit.a *
          (1 + (((buildPlanets u n i k prev).1).getD j defaultPlanet).orbit.e) +
        (if i + j + 1 < 4 then (20 : ℝ) else 80) ≤
      (((buildPlanets u n i k prev).1).getD (j + 1) defaultPlanet).orbit.a *
        (1 - (((buildPlanets u n i k prev).1).getD (j + 1) defaultPlanet).orbit.e) := by
  intro n
  induction n with
  | zero => intro i k prev j hj; omega
  | succ m ih =>
    intro i k prev j hj
    cases j with
    | zero =>
      rw [buildPlanets_getD_zero, buildPlanets_getD_succ]
      have hm : 0 < m := by omega
      have := buildPlanets_head_peri hu m (i + 1) (mkPlanet u i k prev).2
        ((mkPlanet u i k prev).1.orbit.a * (1 + (mkPlanet u i k prev).1.orbit.e)) hm
      have hidx : i + 0 + 1 = i + 1 := by omega
      rw [hidx]
      exact this
    | succ jj =>
      rw [buildPlanets_getD_succ, buildPlanets_getD_succ]
      have := ih (i + 1) (mkPlanet u i k prev).2
        ((mkPlanet u i k prev).1.orbit.a * (1 + (mkPlanet u i k prev).1.orbit.e)) jj
        (by omega)
      have hidx : i + 1 + jj + 1 = i + (jj + 1) + 1 := by omega
      rw [hidx] at this
      exact this

theorem generateSolarSystem_planets (u : ℕ → ℝ) (w h : ℝ) :
    (generateSolarSystem u w h).planets = (planetsPart u).1 := rfl

theorem generateSolarSystem_planets_length (u : ℕ → ℝ) (w h : ℝ) :
    (generateSolarSystem u w h).planets.length = (randomInt u 7 12 4).toNat := by
  rw [generateSolarSystem_planets, planetsPart, buildPlanets_fst_length]

theorem numPlanets_bounds {u : ℕ → ℝ} (hu : UnitStream u) :
    7 ≤ (randomInt u 7 12 4).toNat ∧ (randomInt u 7 12 4).toNat ≤ 12 := by
  have heq : (((12 : ℤ) : ℝ) - ((7 : ℤ) : ℝ) + 1) = 6 := by norm_num
  have h0 : (0 : ℤ) ≤ ⌊u 4 * (((12 : ℤ) : ℝ) - ((7 : ℤ) : ℝ) + 1)⌋ := by
    rw [heq]
    apply Int.floor_nonneg.mpr
    have := (hu 4).1
    nlinarith
  have h1 : ⌊u 4 * (((12 : ℤ) : ℝ) - ((7 : ℤ) : ℝ) + 1)⌋ < 6 := by
    rw [heq]
    apply Int.floor_lt.mpr
    have := (hu 4).2
    push_cast
    nlinarith
  simp only [randomInt]
  omega

/-! ## Claim C1: adjacent orbits never cross or touch -/

/-- C1: in every generated system, each planet's perihelion strictly
exceeds the previous planet's aphelion:
`p2.orbit.a * (1 - p2.orbit.e) > p1.orbit.a * (1 + p1.orbit.e)` for
adjacent planets `p1, p2`. -/
theorem generateSolarSystem_no_overlap (u : ℕ → ℝ) (hu : UnitStream u) (w h : ℝ) (i : ℕ)
    (hi : i + 1 < (generateSolarSystem u w h).planets.length) :
    ((generateSolarSystem u w h).planets.getD (i + 1) defaultPlanet).orbit.a *
        (1 - ((generateSolarSystem u w h).planets.getD (i + 1) defaultPlanet).orbit.e) >
      ((generateSolarSystem u w h).planets.getD i defaultPlanet).orbit.a *
        (1 + ((generateSolarSystem u w h).planets.getD i defaultPlanet).orbit.e) := by
  rw [generateSolarSystem_planets_length] at hi
  rw [generateSolarSystem_planets, planetsPart]
  have hc := buildPlanets_chain hu ((randomInt u 7 12 4).toNat) 0 5
    (randomRange u 5 8 0 + 5) i hi
  have hpos : (0 : ℝ) < if 0 + i + 1 < 4 then (20 : ℝ) else 80 := by
    split_ifs <;> norm_num
  linarith

theorem uZero_planets_length : (generateSolarSystem uZero 800 600).planets.length = 7 := by
  rw [generateSolarSystem_planets_length]
  have h : randomInt uZero 7 12 4 = 7 := by norm_num [randomInt, uZero]
  rw [h]
  rfl

theorem generateSolarSystem_no_overlap_witness :
    UnitStream uZero ∧ 0 + 1 < (generateSolarSystem uZero 800 600).planets.length ∧
      ((generateSolarSystem uZero 800 600).planets.getD (0 + 1) defaultPlanet).orbit.a *
          (1 - ((generateSolarSystem uZero 800 600).planets.getD (0 + 1)
            defaultPlanet).orbit.e) >
        ((generateSolarSystem uZero 800 600).planets.getD 0 defaultPlanet).orbit.a *
          (1 + ((generateSolarSystem uZero 800 600).planets.getD 0 defaultPlanet).orbit.e) :=
  ⟨uZero_unit, by rw [uZero_planets_length]; norm_num,
    generateSolarSystem_no_overlap uZero uZero_unit 800 600 0
      (by rw [uZero_planets_length]; norm_num)⟩

/-! ## Shuffle and belt-list lemmas -/

theorem swapL_mem (l : List ℕ) (i j : ℕ) (hi : i < l.length) (hj : j < l.length) :
    ∀ x ∈ swapL l i j, x ∈ l := by
  intro x hx
  rcases List.mem_or_eq_of_mem_set hx with hx1 | hx1
  · rcases List.mem_or_eq_of_mem_set hx1 with hx2 | hx2
    · exact hx2
    · rw [hx2, List.getD_eq_getElem l 0 hj]
      exact List.getElem_mem ..
  · rw [hx1, List.getD_eq_getElem l 0 hi]
    exact List.getElem_mem ..

theorem swapL_length (l : List ℕ) (i j : ℕ) : (swapL l i j).length = l.length := by
  simp [swapL]

theorem shuffleGo_length (u : ℕ → ℝ) : ∀ l i k, (shuffleGo u l i k).length = l.length := by
  intro l i
  induction i generalizing l with
  | zero => intro k; rfl
  | succ m ih =>
    intro k
    rw [shuffleGo, ih, swapL_length]

theorem shuffleGo_sub {u : ℕ → ℝ} (hu : UnitStream u) :
    ∀ i l k, i < l.length → ∀ x ∈ shuffleGo u l i k, x ∈ l := by
  intro i
  induction i with
  | zero => intro l k _ x hx; exact hx
  | succ m ih =>
    intro l k hm x hx
    rw [shuffleGo] at hx
    have hjle : (⌊u k * ((m + 1 + 1 : ℕ) : ℝ)⌋).toNat < l.length := by
      have h1 : ⌊u k * ((m + 1 + 1 : ℕ) : ℝ)⌋ < (m + 2 : ℤ) := by
        apply Int.floor_lt.mpr
        have h2 := (hu k).2
        have h3 := (hu k).1
        push_cast
        nlinarith
      omega
    have hswap := ih (swapL l (m + 1) (⌊u k * ((m + 1 + 1 : ℕ) : ℝ)⌋).toNat) (k + 1)
      (by rw [swapL_length]; omega) x hx
    exact swapL_mem l (m + 1) _ hm hjle x hswap

theorem mkParticles_length (u : ℕ → ℝ) (lo hi : ℝ) :
    ∀ c k, (mkParticles u lo hi c k).length = c := by
  intro c
  induction c with
  | zero => intro k; rfl
  | succ m ih => intro k; simp only [mkParticles, List.length_cons]; rw [ih]

theorem buildInnerBelts_fst_length (u : ℕ → ℝ) (ps : List Planet) :
    ∀ gaps k, ((buildInnerBelts u ps gaps k).1).length = gaps.length := by
  intro gaps
  induction gaps with
  | nil => intro k; rfl
  | cons idx rest ih =>
    intro k
    simp only [buildInnerBelts, List.length_cons]
    rw [ih]

theorem buildInnerBelts_mem (u : ℕ → ℝ) (ps : List Planet) :
    ∀ gaps k b, b ∈ (buildInnerBelts u ps gaps k).1 →
      ∃ idx ∈ gaps, ∃ k2, b = (mkInnerBelt u ps idx k2).1 := by
  intro gaps
  induction gaps with
  | nil => intro k b hb; exact absurd hb (List.not_mem_nil b)
  | cons idx rest ih =>
    intro k b hb
    rcases List.mem_cons.mp hb with hb1 | hb1
    · exact ⟨idx, List.mem_cons_self idx rest, k, hb1⟩
    · obtain ⟨idx2, hmem, k2, hk2⟩ := ih _ b hb1
      exact ⟨idx2, List.mem_cons_of_mem idx hmem, k2, hk2⟩

theorem validGapsOf_mem (ps : List Planet) (i : ℕ) :
    i ∈ validGapsOf ps ↔ i < ps.length - 1 ∧
      (ps.getD i defaultPlanet).orbit.a * (1 + (ps.getD i defaultPlanet).orbit.e) +
          15 * 2 + 20 <
        (ps.getD (i + 1) defaultPlanet).orbit.a *
          (1 - (ps.getD (i + 1) defaultPlanet).orbit.e) := by
  simp [validGapsOf, List.mem_filter, List.mem_range]

theorem mkInnerBelt_minRadius (u : ℕ → ℝ) (ps : List Planet) (idx k : ℕ) :
    (mkInnerBelt u ps idx k).1.minRadius =
      (ps.getD idx defaultPlanet).orbit.a * (1 + (ps.getD idx defaultPlanet).orbit.e) + 15 :=
  rfl

theorem mkInnerBelt_maxRadius (u : ℕ → ℝ) (ps : List Planet) (idx k : ℕ) :
    (mkInnerBelt u ps idx k).1.maxRadius =
      (ps.getD (idx + 1) defaultPlanet).orbit.a *
        (1 - (ps.getD (idx + 1) defaultPlanet).orbit.e) - 15 :=
  rfl

theorem shuffledGapsOf_sub {u : ℕ → ℝ} (hu : UnitStream u) :
    ∀ x ∈ shuffledGapsOf u, x ∈ validGapsOf (planetsPart u).1 := by
  intro x hx
  rw [shuffledGapsOf] at hx
  rcases Nat.eq_zero_or_pos (validGapsOf (planetsPart u).1).length with h0 | hpos
  · rw [h0] at hx
    exact hx
  · exact shuffleGo_sub hu _ _ _ (by omega) x hx

/-- C2: every inner asteroid belt sits strictly between its bounding
planets' orbits: `minRadius` is the inner planet's aphelion plus the
margin 15, `maxRadius` is the outer planet's perihelion minus the
margin 15, and `minRadius < maxRadius`. -/
theorem generateSolarSystem_belt_fit (u : ℕ → ℝ) (hu : UnitStream u) (w h : ℝ)
    (b : AsteroidBelt) (hb : b ∈ ((generateSolarSystem u w h).asteroidBelts).dropLast) :
    ∃ i, i + 1 < (generateSolarSystem u w h).planets.length ∧
      b.minRadius = ((generateSolarSystem u w h).planets.getD i defaultPlanet).orbit.a *
          (1 + ((generateSolarSystem u w h).planets.getD i defaultPlanet).orbit.e) + 15 ∧
      b.maxRadius = ((generateSolarSystem u w h).planets.getD (i + 1) defaultPlanet).orbit.a *
          (1 - ((generateSolarSystem u w h).planets.getD (i + 1) defaultPlanet).orbit.e) -
          15 ∧
      b.minRadius < b.maxRadius := by
  have hbelts : (generateSolarSystem u w h).asteroidBelts =
      (innerBeltsOf u).1 ++ [outerBeltOf u] := rfl
  rw [hbelts, List.dropLast_concat, innerBeltsOf] at hb
  obtain ⟨idx, hidx, k2, hbk⟩ := buildInnerBelts_mem u (planetsPart u).1 _ _ b hb
  rw [selectedGapsOf] at hidx
  have hsh : idx ∈ shuffledGapsOf u := List.take_subset _ _ hidx
  have hvg := shuffledGapsOf_sub hu idx hsh
  rw [validGapsOf_mem] at hvg
  obtain ⟨hlt, hcond⟩ := hvg
  refine ⟨idx, ?_, ?_, ?_, ?_⟩
  · rw [generateSolarSystem_planets_length]
    rw [planetsPart, buildPlanets_fst_length] at hlt
    omega
  · rw [hbk, generateSolarSystem_planets, mkInnerBelt_minRadius]
  · rw [hbk, generateSolarSystem_planets, mkInnerBelt_maxRadius]
  · rw [hbk, mkInnerBelt_minRadius, mkInnerBelt_maxRadius]
    linarith

theorem beltRollCount_pos (r : ℝ) : 1 ≤ beltRollCount r := by
  rw [beltRollCount]
  split_ifs <;> norm_num

/-- Gap 3 (between planets 3 and 4) is always a valid belt gap: planet
4 uses the outer minimum gap 80 > 50. -/
theorem validGap3 {u : ℕ → ℝ} (hu : UnitStream u) : 3 ∈ validGapsOf (planetsPart u).1 := by
  rw [validGapsOf_mem]
  have hlen : (planetsPart u).1.length = (randomInt u 7 12 4).toNat := by
    rw [planetsPart, buildPlanets_fst_length]
  have h7 := (numPlanets_bounds hu).1
  constructor
  · omega
  · have hc := buildPlanets_chain hu ((randomInt u 7 12 4).toNat) 0 5
      (randomRange u 5 8 0 + 5) 3 (by omega)
    rw [if_neg (by omega : ¬ 0 + 3 + 1 < 4)] at hc
    rw [planetsPart]
    linarith

theorem innerBelts_len (u : ℕ → ℝ) : ((innerBeltsOf u).1).length = numInnerBeltsOf u := by
  rw [innerBeltsOf, buildInnerBelts_fst_length, selectedGapsOf, List.length_take,
    shuffledGapsOf, shuffleGo_length, numInnerBeltsOf]
  omega

theorem innerBelts_nonempty {u : ℕ → ℝ} (hu : UnitStream u) : (innerBeltsOf u).1 ≠ [] := by
  have hvg := List.ne_nil_of_mem (validGap3 hu)
  have hvlen : 0 < (validGapsOf (planetsPart u).1).length := List.length_pos.mpr hvg
  have hroll := beltRollCount_pos (u (planetsPart u).2)
  have hlen : 0 < ((innerBeltsOf u).1).length := by
    rw [innerBelts_len, numInnerBeltsOf]
    omega
  exact List.ne_nil_of_length_pos hlen

theorem headD_mem {α : Type} (l : List α) (d : α) (h : l ≠ []) : l.headD d ∈ l := by
  cases l with
  | nil => exact absurd rfl h
  | cons x xs => exact List.mem_cons_self x xs

theorem uZero_inner_belt_mem :
    ((generateSolarSystem uZero 800 600).asteroidBelts.dropLast).headD defaultBelt ∈
      (generateSolarSystem uZero 800 600).asteroidBelts.dropLast := by
  have hd : (generateSolarSystem uZero 800 600).asteroidBelts.dropLast =
      (innerBeltsOf uZero).1 := by
    rw [show (generateSolarSystem uZero 800 600).asteroidBelts =
      (innerBeltsOf uZero).1 ++ [outerBeltOf uZero] from rfl, List.dropLast_concat]
  rw [hd]
  exact headD_mem _ _ (innerBelts_nonempty uZero_unit)

theorem generateSolarSystem_belt_fit_witness :
    UnitStream uZero ∧
      (((generateSolarSystem uZero 800 600).asteroidBelts.dropLast).headD defaultBelt ∈
        (generateSolarSystem uZero 800 600).asteroidBelts.dropLast) ∧
      ∃ i, i + 1 < (generateSolarSystem uZero 800 600).planets.length ∧
        (((generateSolarSystem uZero 800 600).asteroidBelts.dropLast).headD
              defaultBelt).minRadius =
          ((generateSolarSystem uZero 800 600).planets.getD i defaultPlanet).orbit.a *
            (1 + ((generateSolarSystem uZero 800 600).planets.getD i
              defaultPlanet).orbit.e) + 15 ∧
        (((generateSolarSystem uZero 800 600).asteroidBelts.dropLast).headD
              defaultBelt).maxRadius =
          ((generateSolarSystem uZero 800 600).planets.getD (i + 1) defaultPlanet).orbit.a *
            (1 - ((generateSolarSystem uZero 800 600).planets.getD (i + 1)
              defaultPlanet).orbit.e) - 15 ∧
        (((generateSolarSystem uZero 800 600).asteroidBelts.dropLast).headD
              defaultBelt).minRadius <
          (((generateSolarSystem uZero 800 600).asteroidBelts.dropLast).headD
            defaultBelt).maxRadius :=
  ⟨uZero_unit, uZero_inner_belt_mem,
    generateSolarSystem_belt_fit uZero uZero_unit 800 600 _ uZero_inner_belt_mem⟩

/-! ## Claim C5: belts always exist; outer belt always appended -/

theorem outerBeltOf_particles_length (u : ℕ → ℝ) :
    (outerBeltOf u).particles.length = 2500 := by
  simp only [outerBeltOf]
  rw [mkParticles_length]

/-- C5: generation is total for every draw stream; the inner-belt count
is exactly the drawn request clamped to the number of valid gaps (so
zero valid gaps give zero inner belts), and the outer belt is always
appended with stored count 2500 and exactly 2500 particles, so every
system has at least one belt. -/
theorem generateSolarSystem_always_belts (u : ℕ → ℝ) (w h : ℝ) :
    1 ≤ (generateSolarSystem u w h).asteroidBelts.length ∧
      (generateSolarSystem u w h).asteroidBelts.length =
        min (beltRollCount (u (planetsPart u).2))
          (validGapsOf (generateSolarSystem u w h).planets).length + 1 ∧
      ((generateSolarSystem u w h).asteroidBelts.getLastD defaultBelt).count = 2500 ∧
      ((generateSolarSystem u w h).asteroidBelts.getLastD defaultBelt).particles.length =
        2500 := by
  have hb : (generateSolarSystem u w h).asteroidBelts =
      (innerBeltsOf u).1 ++ [outerBeltOf u] := rfl
  rw [hb, generateSolarSystem_planets]
  refine ⟨?_, ?_, ?_, ?_⟩
  · rw [List.length_append]
    simp
  · rw [List.length_append, innerBelts_len, numInnerBeltsOf]
    simp
  · rw [List.getLastD_concat]
    rfl
  · rw [List.getLastD_concat]
    exact outerBeltOf_particles_length u

/-! ## Moon and id lemmas, claims C10 and C3 -/

theorem randomInt_bounds {u : ℕ → ℝ} (hu : UnitStream u) {lo hi : ℤ} (k : ℕ)
    (h : lo ≤ hi) : lo ≤ randomInt u lo hi k ∧ randomInt u lo hi k ≤ hi := by
  have h0 := (hu k).1
  have h1 := (hu k).2
  have hlr : (lo : ℝ) ≤ (hi : ℝ) := by exact_mod_cast h
  have hw : (0 : ℝ) < (hi : ℝ) - (lo : ℝ) + 1 := by linarith
  constructor
  · have hf : (0 : ℤ) ≤ ⌊u k * ((hi : ℝ) - (lo : ℝ) + 1)⌋ :=
      Int.floor_nonneg.mpr (mul_nonneg h0 hw.le)
    simp only [randomInt]
    omega
  · have hf : ⌊u k * ((hi : ℝ) - (lo : ℝ) + 1)⌋ < hi - lo + 1 := by
      apply Int.floor_lt.mpr
      have := mul_lt_of_lt_one_left hw h1
      push_cast
      linarith
    simp only [randomInt]
    omega

theorem buildMoons_length (u : ℕ → ℝ) (i : ℕ) (r : ℝ) (nm pid : String) :
    ∀ c m k, (buildMoons u i r nm pid c m k).length = c := by
  intro c
  induction c with
  | zero => intro m k; rfl
  | succ n ih =>
    intro m k
    simp only [buildMoons, List.length_cons]
    rw [ih]

theorem buildMoons_parentId (u : ℕ → ℝ) (i : ℕ) (r : ℝ) (nm pid : String) :
    ∀ c m k, ∀ mo ∈ buildMoons u i r nm pid c m k, mo.parentId = pid := by
  intro c
  induction c with
  | zero => intro m k mo hmo; exact absurd hmo (List.not_mem_nil mo)
  | succ n ih =>
    intro m k mo hmo
    rcases List.mem_cons.mp hmo with hmo1 | hmo1
    · rw [hmo1]
    · exact ih (m + 1) (k + 6) mo hmo1

theorem buildMoons_getD_id (u : ℕ → ℝ) (i : ℕ) (r : ℝ) (nm pid : String) :
    ∀ c m k j, j < c →
      ((buildMoons u i r nm pid c m k).getD j defaultMoon).id =
        "moon-" ++ toString i ++ "-" ++ toString (m + j) := by
  intro c
  induction c with
  | zero => intro m k j hj; omega
  | succ n ih =>
    intro m k j hj
    cases j with
    | zero => rw [Nat.add_zero]; rfl
    | succ jj =>
      have hstep : (buildMoons u i r nm pid (n + 1) m k).getD (jj + 1) defaultMoon =
          (buildMoons u i r nm pid n (m + 1) (k + 6)).getD jj defaultMoon := rfl
      rw [hstep, ih (m + 1) (k + 6) jj (by omega)]
      have : m + 1 + jj = m + (jj + 1) := by omega
      rw [this]

theorem buildMoons_a_bounds {u : ℕ → ℝ} (hu : UnitStream u) (i : ℕ) (r : ℝ)
    (nm pid : String) :
    ∀ (c m k j : ℕ), j < c →
      r + 5 + 4 * ((m : ℝ) + (j : ℝ)) ≤
          ((buildMoons u i r nm pid c m k).getD j defaultMoon).orbit.a ∧
        ((buildMoons u i r nm pid c m k).getD j defaultMoon).orbit.a <
          r + 15 + 8 * ((m : ℝ) + (j : ℝ)) := by
  intro c
  induction c with
  | zero => intro m k j hj; omega
  | succ n ih =>
    intro m k j hj
    cases j with
    | zero =>
      have ha : ((buildMoons u i r nm pid (n + 1) m k).getD 0 defaultMoon).orbit.a =
          r + randomRange u 5 15 k + (m : ℝ) * randomRange u 4 8 (k + 1) := rfl
      rw [ha]
      have h5lo := randomRange_lower (hu k).1 (by norm_num : (5 : ℝ) ≤ 15)
      have h5hi := randomRange_upper (hu k).1 (hu k).2 (by norm_num : (5 : ℝ) < 15)
      have h4lo := randomRange_lower (hu (k + 1)).1 (by norm_num : (4 : ℝ) ≤ 8)
      have h4hi := randomRange_upper (hu (k + 1)).1 (hu (k + 1)).2 (by norm_num : (4 : ℝ) < 8)
      have hm0 : (0 : ℝ) ≤ (m : ℝ) := Nat.cast_nonneg m
      have hml : 4 * (m : ℝ) ≤ (m : ℝ) * randomRange u 4 8 (k + 1) := by nlinarith
      have hmu : (m : ℝ) * randomRange u 4 8 (k + 1) ≤ 8 * (m : ℝ) := by nlinarith
      constructor
      · push_cast
        linarith
      · push_cast
        linarith
    | succ jj =>
      have hstep : (buildMoons u i r nm pid (n + 1) m k).getD (jj + 1) defaultMoon =
          (buildMoons u i r nm pid n (m + 1) (k + 6)).getD jj defaultMoon := rfl
      rw [hstep]
      have hb := ih (m + 1) (k + 6) jj (by omega)
      constructor
      · have h1 := hb.1
        push_cast at h1 ⊢
        linarith
      · have h2 := hb.2
        push_cast at h2 ⊢
        linarith

/-- The moons of a generated planet are a `buildMoons` run from moon
index 0 with the planet's own radius and id, and at most 8 moons. -/
theorem mkPlanet_moons {u : ℕ → ℝ} (hu : UnitStream u) (i k : ℕ) (prev : ℝ) :
    ∃ c k2, (mkPlanet u i k prev).1.moons =
        buildMoons u i ((mkPlanet u i k prev).1.radius) ((mkPlanet u i k prev).1.name)
          ("planet-" ++ toString i) c 0 k2 ∧ c ≤ 8 := by
  by_cases hd : planetTypeOf u i k prev = .dwarf
  · refine ⟨0, 0, ?_, by norm_num⟩
    have hm : (mkPlanet u i k prev).1.moons =
        (if planetTypeOf u i k prev = .dwarf then []
         else buildMoons u i (planetRadiusOf u i k prev)
           (generateName u (planetK2 u i k prev)).1 ("planet-" ++ toString i)
           (planetNumMoons u i k prev) 0 (planetK3 u i k prev + 3)) := rfl
    rw [hm, if_pos hd]
    rfl
  · refine ⟨planetNumMoons u i k prev, planetK3 u i k prev + 3, ?_, ?_⟩
    · have hm : (mkPlanet u i k prev).1.moons =
          (if planetTypeOf u i k prev = .dwarf then []
           else buildMoons u i (planetRadiusOf u i k prev)
             (generateName u (planetK2 u i k prev)).1 ("planet-" ++ toString i)
             (planetNumMoons u i k prev) 0 (planetK3 u i k prev + 3)) := rfl
      rw [hm, if_neg hd]
      rfl
    · rw [planetNumMoons]
      split_ifs with hg hi2
      · have := (randomInt_bounds hu (planetK3 u i k prev + 2)
          (by norm_num : (3 : ℤ) ≤ 8)).2
        omega
      · have := (randomInt_bounds hu (planetK3 u i k prev + 2)
          (by norm_num : (2 : ℤ) ≤ 5)).2
        omega
      · have := (randomInt_bounds hu (planetK3 u i k prev + 2)
          (by norm_num : (0 : ℤ) ≤ 2)).2
        omega

theorem buildPlanets_getD_mk (u : ℕ → ℝ) :
    ∀ n i k prev j, j < n → ∃ k2 prev2,
      ((buildPlanets u n i k prev).1).getD j defaultPlanet = (mkPlanet u (i + j) k2 prev2).1 := by
  intro n
  induction n with
  | zero => intro i k prev j hj; omega
  | succ m ih =>
    intro i k prev j hj
    cases j with
    | zero => exact ⟨k, prev, by rw [buildPlanets_getD_zero]; rfl⟩
    | succ jj =>
      obtain ⟨k2, prev2, hk⟩ := ih (i + 1) (mkPlanet u i k prev).2
        ((mkPlanet u i k prev).1.orbit.a * (1 + (mkPlanet u i k prev).1.orbit.e)) jj
        (by omega)
      refine ⟨k2, prev2, ?_⟩
      rw [buildPlanets_getD_succ, hk]
      have : i + 1 + jj = i + (jj + 1) := by omega
      rw [this]

set_option maxRecDepth 4000 in
theorem planetStr_inj : ∀ a, a < 13 → ∀ b, b < 13 → a ≠ b →
    "planet-" ++ toString a ≠ "planet-" ++ toString b := by decide

set_option maxRecDepth 10000 in
theorem decode_moon : ∀ p, p < 108 →
    decodeMoonId ("moon-" ++ toString (p / 9) ++ "-" ++ toString (p % 9)) = (p / 9, p % 9) := by
  decide

theorem moonStr_inj : ∀ p, p < 108 → ∀ q, q < 108 → p ≠ q →
    "moon-" ++ toString (p / 9) ++ "-" ++ toString (p % 9) ≠
      "moon-" ++ toString (q / 9) ++ "-" ++ toString (q % 9) := by
  intro p hp q hq hne heq
  have h1 := decode_moon p hp
  have h2 := decode_moon q hq
  rw [heq, h2, Prod.mk.injEq] at h1
  omega

/-- C10: planet ids are pairwise distinct, each moon's `parentId` is the
id of the planet owning it, and moon ids are pairwise distinct across
the whole system. -/
theorem generateSolarSystem_unique_ids (u : ℕ → ℝ) (hu : UnitStream u) (w h : ℝ) :
    (∀ j1 j2, j1 < (generateSolarSystem u w h).planets.length →
        j2 < (generateSolarSystem u w h).planets.length → j1 ≠ j2 →
        ((generateSolarSystem u w h).planets.getD j1 defaultPlanet).id ≠
          ((generateSolarSystem u w h).planets.getD j2 defaultPlanet).id) ∧
      (∀ j, j < (generateSolarSystem u w h).planets.length →
        ∀ mo ∈ ((generateSolarSystem u w h).planets.getD j defaultPlanet).moons,
          mo.parentId = ((generateSolarSystem u w h).planets.getD j defaultPlanet).id) ∧
      (∀ j1 j2 m1 m2, j1 < (generateSolarSystem u w h).planets.length →
        j2 < (generateSolarSystem u w h).planets.length →
        m1 < ((generateSolarSystem u w h).planets.getD j1 defaultPlanet).moons.length →
        m2 < ((generateSolarSystem u w h).planets.getD j2 defaultPlanet).moons.length →
        ¬(j1 = j2 ∧ m1 = m2) →
        (((generateSolarSystem u w h).planets.getD j1 defaultPlanet).moons.getD m1
            defaultMoon).id ≠
          (((generateSolarSystem u w h).planets.getD j2 defaultPlanet).moons.getD m2
            defaultMoon).id) := by
  have hlen : (generateSolarSystem u w h).planets.length = (randomInt u 7 12 4).toNat :=
    generateSolarSystem_planets_length u w h
  have h12 := (numPlanets_bounds hu).2
  have hgetD : ∀ j, j < (generateSolarSystem u w h).planets.length →
      ∃ k2 prev2, (generateSolarSystem u w h).planets.getD j defaultPlanet =
        (mkPlanet u j k2 prev2).1 := by
    intro j hj
    rw [hlen] at hj
    rw [generateSolarSystem_planets, planetsPart]
    obtain ⟨k2, prev2, hk⟩ := buildPlanets_getD_mk u _ 0 5 (randomRange u 5 8 0 + 5) j hj
    rw [Nat.zero_add] at hk
    exact ⟨k2, prev2, hk⟩
  refine ⟨?_, ?_, ?_⟩
  · intro j1 j2 hj1 hj2 hne
    obtain ⟨k2, p2, h1⟩ := hgetD j1 hj1
    obtain ⟨k3, p3, h2⟩ := hgetD j2 hj2
    rw [h1, h2, mkPlanet_fst_id, mkPlanet_fst_id]
    rw [hlen] at hj1 hj2
    exact planetStr_inj j1 (by omega) j2 (by omega) hne
  · intro j hj mo hmo
    obtain ⟨k2, p2, h1⟩ := hgetD j hj
    rw [h1] at hmo ⊢
    obtain ⟨c, kk, hmoons, hc⟩ := mkPlanet_moons hu j k2 p2
    rw [hmoons] at hmo
    rw [mkPlanet_fst_id]
    exact buildMoons_parentId u j _ _ _ c 0 kk mo hmo
  · intro j1 j2 m1 m2 hj1 hj2 hm1 hm2 hne
    obtain ⟨k2, p2, h1⟩ := hgetD j1 hj1
    obtain ⟨k3, p3, h2⟩ := hgetD j2 hj2
    rw [h1] at hm1 ⊢
    rw [h2] at hm2 ⊢
    obtain ⟨c1, kk1, hmoons1, hc1⟩ := mkPlanet_moons hu j1 k2 p2
    obtain ⟨c2, kk2, hmoons2, hc2⟩ := mkPlanet_moons hu j2 k3 p3
    rw [hmoons1] at hm1 ⊢
    rw [hmoons2] at hm2 ⊢
    rw [buildMoons_length] at hm1 hm2
    rw [buildMoons_getD_id u j1 _ _ _ c1 0 kk1 m1 hm1,
      buildMoons_getD_id u j2 _ _ _ c2 0 kk2 m2 hm2]
    rw [Nat.zero_add, Nat.zero_add]
    rw [hlen] at hj1 hj2
    have hp : j1 * 9 + m1 < 108 := by omega
    have hq : j2 * 9 + m2 < 108 := by omega
    have hd1 : (j1 * 9 + m1) / 9 = j1 := by omega
    have hd2 : (j1 * 9 + m1) % 9 = m1 := by omega
    have hd3 : (j2 * 9 + m2) / 9 = j2 := by omega
    have hd4 : (j2 * 9 + m2) % 9 = m2 := by omega
    have hfin := moonStr_inj (j1 * 9 + m1) hp (j2 * 9 + m2) hq (by omega)
    rw [hd1, hd2, hd3, hd4] at hfin
    exact hfin

/-! ## Concrete-stream evaluation lemmas -/

theorem uHalf_planets_length : (generateSolarSystem uHalf 800 600).planets.length = 10 := by
  rw [generateSolarSystem_planets_length]
  have h : randomInt uHalf 7 12 4 = 10 := by norm_num [randomInt, uHalf]
  rw [h]
  rfl

/-- Under the constant one-half stream every planet is an ice giant or
rocky (never a dwarf), so it has at least one moon. -/
theorem uHalf_mkPlanet_moons_pos (i k : ℕ) (prev : ℝ) :
    0 < (mkPlanet uHalf i k prev).1.moons.length := by
  have htyp : planetTypeOf uHalf i k prev = .iceGiant ∨
      planetTypeOf uHalf i k prev = .rocky := by
    rw [planetTypeOf]
    split_ifs with h1 h2 h3 h4 h5
    · exact absurd h2 (by norm_num [uHalf])
    · left; rfl
    · exact absurd h3 (fun hcon => hcon (by norm_num [uHalf]))
    · exact absurd h3 (fun hcon => hcon (by norm_num [uHalf]))
    · exact absurd h5 (by norm_num [uHalf])
    · right; rfl
  have hnd : planetTypeOf uHalf i k prev ≠ .dwarf := by
    rcases htyp with h | h <;> rw [h] <;> decide
  have hm : (mkPlanet uHalf i k prev).1.moons =
      (if planetTypeOf uHalf i k prev = .dwarf then []
       else buildMoons uHalf i (planetRadiusOf uHalf i k prev)
         (generateName uHalf (planetK2 uHalf i k prev)).1 ("planet-" ++ toString i)
         (planetNumMoons uHalf i k prev) 0 (planetK3 uHalf i k prev + 3)) := rfl
  rw [hm, if_neg hnd, buildMoons_length, planetNumMoons]
  rcases htyp with h | h <;> rw [h]
  · rw [if_neg (by decide), if_pos rfl]
    have h4 : randomInt uHalf 2 5 (planetK3 uHalf i k prev + 2) = 4 := by
      norm_num [randomInt, uHalf]
    rw [h4]
    decide
  · rw [if_neg (by decide), if_neg (by decide)]
    have h1 : randomInt uHalf 0 2 (planetK3 uHalf i k prev + 2) = 1 := by
      norm_num [randomInt, uHalf]
    rw [h1]
    decide

theorem uHalf_planet_moons_pos (j : ℕ)
    (hj : j < (generateSolarSystem uHalf 800 600).planets.length) :
    0 < ((generateSolarSystem uHalf 800 600).planets.getD j defaultPlanet).moons.length := by
  rw [generateSolarSystem_planets_length] at hj
  rw [generateSolarSystem_planets, planetsPart]
  obtain ⟨k2, p2, hk⟩ := buildPlanets_getD_mk uHalf _ 0 5 (randomRange uHalf 5 8 0 + 5) j hj
  rw [hk]
  exact uHalf_mkPlanet_moons_pos (0 + j) k2 p2

theorem generateSolarSystem_unique_ids_witness :
    UnitStream uHalf ∧
      ((generateSolarSystem uHalf 800 600).planets.getD 0 defaultPlanet).id ≠
        ((generateSolarSystem uHalf 800 600).planets.getD 1 defaultPlanet).id ∧
      (((generateSolarSystem uHalf 800 600).planets.getD 0 defaultPlanet).moons.getD 0
          defaultMoon).parentId =
        ((generateSolarSystem uHalf 800 600).planets.getD 0 defaultPlanet).id ∧
      (((generateSolarSystem uHalf 800 600).planets.getD 0 defaultPlanet).moons.getD 0
          defaultMoon).id ≠
        (((generateSolarSystem uHalf 800 600).planets.getD 1 defaultPlanet).moons.getD 0
          defaultMoon).id := by
  have h0 : 0 < (generateSolarSystem uHalf 800 600).planets.length := by
    rw [uHalf_planets_length]; norm_num
  have h1 : 1 < (generateSolarSystem uHalf 800 600).planets.length := by
    rw [uHalf_planets_length]; norm_num
  have hm0 := uHalf_planet_moons_pos 0 h0
  have hm1 := uHalf_planet_moons_pos 1 h1
  have hmain := generateSolarSystem_unique_ids uHalf uHalf_unit 800 600
  refine ⟨uHalf_unit, hmain.1 0 1 h0 h1 (by omega), ?_,
    hmain.2.2 0 1 0 0 h0 h1 hm0 hm1 (by omega)⟩
  have hmem : ((generateSolarSystem uHalf 800 600).planets.getD 0 defaultPlanet).moons.getD 0
      defaultMoon ∈ ((generateSolarSystem uHalf 800 600).planets.getD 0 defaultPlanet).moons := by
    rw [List.getD_eq_getElem _ _ hm0]
    exact List.getElem_mem ..
  exact hmain.2.1 0 h0 _ hmem

/-! ## Claim C3: moon orbital radii (amended) and its counterexample -/

/-- C3 (amended): each moon's orbital radius is the planet's own radius
plus an offset in `[5 + 4m, 15 + 8m)` for moon index `m` — the bounds
grow with the index, but the offsets are independent draws, so the
radii need not increase with the index. -/
theorem generateSolarSystem_moon_radius_bounds (u : ℕ → ℝ) (hu : UnitStream u) (w h : ℝ)
    (j m : ℕ) (hj : j < (generateSolarSystem u w h).planets.length)
    (hm : m < ((generateSolarSystem u w h).planets.getD j defaultPlanet).moons.length) :
    ((generateSolarSystem u w h).planets.getD j defaultPlanet).radius + 5 + 4 * (m : ℝ) ≤
        ((((generateSolarSystem u w h).planets.getD j defaultPlanet).moons.getD m
          defaultMoon)).orbit.a ∧
      ((((generateSolarSystem u w h).planets.getD j defaultPlanet).moons.getD m
          defaultMoon)).orbit.a <
        ((generateSolarSystem u w h).planets.getD j defaultPlanet).radius + 15 +
          8 * (m : ℝ) := by
  rw [generateSolarSystem_planets_length] at hj
  rw [generateSolarSystem_planets, planetsPart] at hm ⊢
  obtain ⟨k2, p2, hk⟩ := buildPlanets_getD_mk u _ 0 5 (randomRange u 5 8 0 + 5) j hj
  rw [hk] at hm ⊢
  obtain ⟨c, kk, hmoons, hc⟩ := mkPlanet_moons hu (0 + j) k2 p2
  rw [hmoons] at hm ⊢
  rw [buildMoons_length] at hm
  have hb := buildMoons_a_bounds hu (0 + j) ((mkPlanet u (0 + j) k2 p2).1.radius)
    ((mkPlanet u (0 + j) k2 p2).1.name) ("planet-" ++ toString (0 + j)) c 0 kk m hm
  constructor
  · have hx := hb.1
    push_cast at hx ⊢
    linarith
  · have hx := hb.2
    push_cast at hx ⊢
    linarith

theorem generateSolarSystem_moon_radius_bounds_witness :
    UnitStream uHalf ∧ 0 < (generateSolarSystem uHalf 800 600).planets.length ∧
      0 < ((generateSolarSystem uHalf 800 600).planets.getD 0 defaultPlanet).moons.length ∧
      (((generateSolarSystem uHalf 800 600).planets.getD 0 defaultPlanet).radius + 5 +
            4 * ((0 : ℕ) : ℝ) ≤
          ((((generateSolarSystem uHalf 800 600).planets.getD 0 defaultPlanet).moons.getD 0
            defaultMoon)).orbit.a ∧
        ((((generateSolarSystem uHalf 800 600).planets.getD 0 defaultPlanet).moons.getD 0
            defaultMoon)).orbit.a <
          ((generateSolarSystem uHalf 800 600).planets.getD 0 defaultPlanet).radius + 15 +
            8 * ((0 : ℕ) : ℝ)) := by
  have h0 : 0 < (generateSolarSystem uHalf 800 600).planets.length := by
    rw [uHalf_planets_length]; norm_num
  have hm0 := uHalf_planet_moons_pos 0 h0
  exact ⟨uHalf_unit, h0, hm0,
    generateSolarSystem_moon_radius_bounds uHalf uHalf_unit 800 600 0 0 h0 hm0⟩

theorem uMoonSwap_p0 :
    (generateSolarSystem uMoonSwap 800 600).planets.getD 0 defaultPlanet =
      (mkPlanet uMoonSwap 0 5 10).1 := by
  rw [generateSolarSystem_planets, planetsPart]
  have hN : (randomInt uMoonSwap 7 12 4).toNat = 7 := by
    have h : randomInt uMoonSwap 7 12 4 = 7 := by norm_num [randomInt, uMoonSwap]
    rw [h]
    rfl
  have hprev : randomRange uMoonSwap 5 8 0 + 5 = 10 := by
    norm_num [randomRange, uMoonSwap]
  rw [hN, hprev]
  rw [show (7 : ℕ) = 6 + 1 from rfl, buildPlanets_getD_zero]

theorem uMoonSwap_p0_type : planetTypeOf uMoonSwap 0 5 10 = .rocky := by
  rw [planetTypeOf]
  rw [if_neg, if_neg]
  · norm_num [uMoonSwap]
  · push_neg
    refine ⟨?_, by omega⟩
    norm_num [planetA, planetGap, planetEcc, randomRange, uMoonSwap]

theorem uMoonSwap_p0_radius : planetRadiusOf uMoonSwap 0 5 10 = 3 := by
  rw [planetRadiusOf, uMoonSwap_p0_type]
  rw [if_neg (by decide), if_neg (by decide), if_neg (by decide)]
  norm_num [randomRange, uMoonSwap]

theorem uMoonSwap_p0_k2 : planetK2 uMoonSwap 0 5 10 = 13 := by
  rw [planetK2, uMoonSwap_p0_type, generateColor,
    if_pos (show ptypeStr PlanetType.rocky = "Rocky" from rfl)]
  split_ifs <;> rfl

theorem uMoonSwap_p0_k3 : planetK3 uMoonSwap 0 5 10 = 16 := by
  rw [planetK3, uMoonSwap_p0_k2]
  rfl

theorem uMoonSwap_p0_numMoons : planetNumMoons uMoonSwap 0 5 10 = 2 := by
  rw [planetNumMoons, uMoonSwap_p0_type]
  rw [if_neg (by decide), if_neg (by decide), uMoonSwap_p0_k3]
  have h : randomInt uMoonSwap 0 2 (16 + 2) = 2 := by norm_num [randomInt, uMoonSwap]
  rw [h]
  rfl

theorem uMoonSwap_p0_moons :
    ((generateSolarSystem uMoonSwap 800 600).planets.getD 0 defaultPlanet).moons =
      buildMoons uMoonSwap 0 3 (generateName uMoonSwap 13).1 ("planet-" ++ toString 0)
        2 0 19 := by
  rw [uMoonSwap_p0]
  have hrfl : (mkPlanet uMoonSwap 0 5 10).1.moons =
      (if planetTypeOf uMoonSwap 0 5 10 = .dwarf then []
       else buildMoons uMoonSwap 0 (planetRadiusOf uMoonSwap 0 5 10)
         (generateName uMoonSwap (planetK2 uMoonSwap 0 5 10)).1 ("planet-" ++ toString 0)
         (planetNumMoons uMoonSwap 0 5 10) 0 (planetK3 uMoonSwap 0 5 10 + 3)) := rfl
  rw [hrfl, uMoonSwap_p0_type]
  rw [if_neg (by decide)]
  rw [uMoonSwap_p0_radius, uMoonSwap_p0_k2, uMoonSwap_p0_k3, uMoonSwap_p0_numMoons]

theorem uMoonSwap_moon0_a :
    ((((generateSolarSystem uMoonSwap 800 600).planets.getD 0 defaultPlanet).moons.getD 0
      defaultMoon)).orbit.a = 17 := by
  rw [uMoonSwap_p0_moons]
  have hrfl : ((buildMoons uMoonSwap 0 3 (generateName uMoonSwap 13).1
        ("planet-" ++ toString 0) 2 0 19).getD 0 defaultMoon).orbit.a =
      3 + randomRange uMoonSwap 5 15 19 + ((0 : ℕ) : ℝ) * randomRange uMoonSwap 4 8 20 :=
    rfl
  rw [hrfl]
  norm_num [randomRange, uMoonSwap]

theorem uMoonSwap_moon1_a :
    ((((generateSolarSystem uMoonSwap 800 600).planets.getD 0 defaultPlanet).moons.getD 1
      defaultMoon)).orbit.a = 12 := by
  rw [uMoonSwap_p0_moons]
  have hrfl : ((buildMoons uMoonSwap 0 3 (generateName uMoonSwap 13).1
        ("planet-" ++ toString 0) 2 0 19).getD 1 defaultMoon).orbit.a =
      3 + randomRange uMoonSwap 5 15 25 + ((1 : ℕ) : ℝ) * randomRange uMoonSwap 4 8 26 :=
    rfl
  rw [hrfl]
  norm_num [randomRange, uMoonSwap]

theorem uMoonSwap_moons_length :
    ((generateSolarSystem uMoonSwap 800 600).planets.getD 0 defaultPlanet).moons.length =
      2 := by
  rw [uMoonSwap_p0_moons, buildMoons_length]

/-- C3 counterexample: in the system drawn from `uMoonSwap` (a valid
`[0,1)` stream), planet 0 has two moons with orbital radii 17 and 12:
the radii are not increasing in the moon index, refuting the claim as
stated. -/
theorem generateSolarSystem_moons_not_increasing :
    ¬ (∀ m1 m2 : ℕ, m1 < m2 →
        m2 < ((generateSolarSystem uMoonSwap 800 600).planets.getD 0
          defaultPlanet).moons.length →
        ((((generateSolarSystem uMoonSwap 800 600).planets.getD 0
            defaultPlanet).moons.getD m1 defaultMoon)).orbit.a <
          ((((generateSolarSystem uMoonSwap 800 600).planets.getD 0
            defaultPlanet).moons.getD m2 defaultMoon)).orbit.a) := by
  intro hcl
  have h := hcl 0 1 (by norm_num) (by rw [uMoonSwap_moons_length]; norm_num)
  rw [uMoonSwap_moon0_a, uMoonSwap_moon1_a] at h
  norm_num at h
